import Mathlib

/-! Change hints (`layout/base/nsChangeHint.h`)

A shallow embedding of the change-hint vocabulary of `nsChangeHint.h`, of its
three "handled for descendants" category masks, and of the reducer functions
`NS_IsHintSubset`, `NS_HintsNotHandledForDescendantsIn`,
`NS_HintsHandledForDescendantsIn` and `NS_RemoveSubsumedHints`.

`enum class nsChangeHint : uint32_t` is embedded as `Nat`; a value of the C++
type is a natural number below `2 ^ 32`.  The operators `&`, `|` and `^` of the
enum act on the underlying `uint32_t` and are the operations `&&&`, `|||` and
`^^^` of `Nat`; `~` is `nsChangeHint_not`.

`MOZ_ASSERT` aborts a debug build when its condition is false and is compiled
out of a release build.  The value a function computes is embedded as a plain
function; the condition of each `MOZ_ASSERT` is embedded as a separate `Bool`
valued definition named after the function with the suffix `_assert`.
-/

/-! ## The hint vocabulary -/

namespace nsChangeHint

def Empty : Nat := 0
def RepaintFrame : Nat := 1 <<< 0
def NeedReflow : Nat := 1 <<< 1
def ClearAncestorIntrinsics : Nat := 1 <<< 2
def ClearDescendantIntrinsics : Nat := 1 <<< 3
def NeedDirtyReflow : Nat := 1 <<< 4
def SyncFrameView : Nat := 1 <<< 5
def UpdateCursor : Nat := 1 <<< 6
def UpdateEffects : Nat := 1 <<< 7
def UpdateOpacityLayer : Nat := 1 <<< 8
def UpdateTransformLayer : Nat := 1 <<< 9
def ReconstructFrame : Nat := 1 <<< 10
def UpdateOverflow : Nat := 1 <<< 11
def UpdateSubtreeOverflow : Nat := 1 <<< 12
def UpdatePostTransformOverflow : Nat := 1 <<< 13
def UpdateParentOverflow : Nat := 1 <<< 14
def ChildrenOnlyTransform : Nat := 1 <<< 15
def RecomputePosition : Nat := 1 <<< 16
def UpdateContainingBlock : Nat := 1 <<< 17
def BorderStyleNoneChange : Nat := 1 <<< 18
def UpdateTextPath : Nat := 1 <<< 19
def SchedulePaint : Nat := 1 <<< 20
def NeutralChange : Nat := 1 <<< 21
def InvalidateRenderingObservers : Nat := 1 <<< 22
def ReflowChangesSizeOrPosition : Nat := 1 <<< 23
def UpdateComputedBSize : Nat := 1 <<< 24
def UpdateUsesOpacity : Nat := 1 <<< 25
def UpdateBackgroundPosition : Nat := 1 <<< 26
def AddOrRemoveTransform : Nat := 1 <<< 27
def ScrollbarChange : Nat := 1 <<< 28
def UpdateWidgetProperties : Nat := 1 <<< 29
def UpdateTableCellSpans : Nat := 1 <<< 30
def VisibilityChange : Nat := 1 <<< 31

/-- Dummy hint value for all hints: `uint32_t((1ull << 32) - 1)`. -/
def All_Hints : Nat := ((1 <<< 32) - 1) % 2 ^ 32

end nsChangeHint

open nsChangeHint

/-- Modelled from the spec: the bitwise operators of `nsChangeHint` come from
`MOZ_MAKE_ENUM_CLASS_BITWISE_OPERATORS` (`mozilla/TypedEnumBits.h`, not among
the sources); they are the set operations on the underlying 32-bit mask.  This
is `operator~`, the complement within the 32 bits of `uint32_t`. -/
def nsChangeHint_not (a : Nat) : Nat := (2 ^ 32 - 1 - a) % 2 ^ 32

/-- Returns true iff the second hint contains all the hints of the first
hint. -/
def NS_IsHintSubset (aSubset aSuperSet : Nat) : Bool :=
  (aSubset &&& aSuperSet) == aSubset

/-! ## The three categories -/

/-- The change hints that are always handled for descendants. -/
def nsChangeHint_Hints_AlwaysHandledForDescendants : Nat :=
  ClearDescendantIntrinsics ||| NeedDirtyReflow |||
  NeutralChange ||| ReconstructFrame |||
  RepaintFrame ||| SchedulePaint |||
  SyncFrameView ||| UpdateCursor |||
  UpdateSubtreeOverflow ||| UpdateTextPath |||
  VisibilityChange

/-- The change hints that are never handled for descendants. -/
def nsChangeHint_Hints_NeverHandledForDescendants : Nat :=
  BorderStyleNoneChange ||| ChildrenOnlyTransform |||
  ScrollbarChange ||| InvalidateRenderingObservers |||
  RecomputePosition ||| UpdateBackgroundPosition |||
  UpdateComputedBSize ||| UpdateContainingBlock |||
  UpdateEffects ||| UpdateOpacityLayer |||
  UpdateOverflow ||| UpdateParentOverflow |||
  UpdatePostTransformOverflow |||
  UpdateTableCellSpans ||| UpdateTransformLayer |||
  UpdateUsesOpacity ||| AddOrRemoveTransform |||
  UpdateWidgetProperties

/-- The change hints that are sometimes considered to be handled for
descendants. -/
def nsChangeHint_Hints_SometimesHandledForDescendants : Nat :=
  ClearAncestorIntrinsics ||| NeedReflow |||
  ReflowChangesSizeOrPosition

/-- The condition of the `static_assert` that follows the three category
masks: "change hints must be present in exactly one of
nsChangeHint_Hints_{Always,Never,Sometimes}HandledForDescendants". -/
def nsChangeHint_Hints_static_assert : Bool :=
  !((nsChangeHint_Hints_AlwaysHandledForDescendants &&&
      nsChangeHint_Hints_NeverHandledForDescendants) != 0) &&
  !((nsChangeHint_Hints_AlwaysHandledForDescendants &&&
      nsChangeHint_Hints_SometimesHandledForDescendants) != 0) &&
  !((nsChangeHint_Hints_NeverHandledForDescendants &&&
      nsChangeHint_Hints_SometimesHandledForDescendants) != 0) &&
  !((All_Hints ^^^
      nsChangeHint_Hints_AlwaysHandledForDescendants ^^^
      nsChangeHint_Hints_NeverHandledForDescendants ^^^
      nsChangeHint_Hints_SometimesHandledForDescendants) != 0)

/-- The most hints that `NS_HintsNotHandledForDescendantsIn` could possibly
return. -/
def nsChangeHint_Hints_NotHandledForDescendants : Nat :=
  nsChangeHint_Hints_NeverHandledForDescendants |||
  nsChangeHint_Hints_SometimesHandledForDescendants

/-! ## Derived hint constants -/

def NS_STYLE_HINT_VISUAL : Nat :=
  RepaintFrame ||| SyncFrameView |||
  SchedulePaint

def nsChangeHint_AllReflowHints : Nat :=
  NeedReflow ||| ReflowChangesSizeOrPosition |||
  ClearAncestorIntrinsics |||
  ClearDescendantIntrinsics ||| NeedDirtyReflow

/-- For an ISize change: `nsChangeHint_AllReflowHints` without
`ClearDescendantIntrinsics` and `NeedDirtyReflow`. -/
def nsChangeHint_ReflowHintsForISizeChange : Nat :=
  nsChangeHint_AllReflowHints &&&
    nsChangeHint_not (ClearDescendantIntrinsics |||
      NeedDirtyReflow)

/-- For a BSize change: almost the same hints as for ISize changes, with
`UpdateComputedBSize` in addition. -/
def nsChangeHint_ReflowHintsForBSizeChange : Nat :=
  (nsChangeHint_AllReflowHints ||| UpdateComputedBSize) &&&
    nsChangeHint_not (ClearDescendantIntrinsics |||
      NeedDirtyReflow)

/-- For changes to the float area of an already-floated element: all reflow
hints, but not the ones that apply to descendants. -/
def nsChangeHint_ReflowHintsForFloatAreaChange : Nat :=
  nsChangeHint_AllReflowHints &&&
    nsChangeHint_not (ClearDescendantIntrinsics |||
      NeedDirtyReflow)

def NS_STYLE_HINT_REFLOW : Nat :=
  NS_STYLE_HINT_VISUAL ||| nsChangeHint_AllReflowHints

def nsChangeHint_Hints_CanIgnoreIfNotVisible : Nat :=
  NS_STYLE_HINT_VISUAL ||| NeutralChange |||
  UpdateOpacityLayer ||| AddOrRemoveTransform |||
  UpdateContainingBlock ||| UpdateOverflow |||
  UpdatePostTransformOverflow |||
  UpdateTransformLayer ||| UpdateUsesOpacity |||
  VisibilityChange

/-- Change hints for added or removed transform style. -/
def nsChangeHint_ComprehensiveAddOrRemoveTransform : Nat :=
  UpdateContainingBlock |||
  AddOrRemoveTransform |||
  UpdateOverflow ||| RepaintFrame

/-! ## The reducers -/

/-- The hints of `aChangeHint` that are not handled for descendants (the value
returned; the `MOZ_ASSERT` before the `return` is
`NS_HintsNotHandledForDescendantsIn_assert`). -/
def NS_HintsNotHandledForDescendantsIn (aChangeHint : Nat) : Nat :=
  let result := aChangeHint &&& nsChangeHint_Hints_NeverHandledForDescendants
  let result :=
    if !NS_IsHintSubset NeedDirtyReflow aChangeHint then
      let result :=
        if NS_IsHintSubset NeedReflow aChangeHint then
          -- If NeedDirtyReflow is *not* set, then NeedReflow is a
          -- non-inherited hint.
          result ||| NeedReflow
        else result
      let result :=
        if NS_IsHintSubset ReflowChangesSizeOrPosition aChangeHint then
          -- If NeedDirtyReflow is *not* set, then ReflowChangesSizeOrPosition
          -- is a non-inherited hint.
          result ||| ReflowChangesSizeOrPosition
        else result
      result
    else result
  let result :=
    if !NS_IsHintSubset ClearDescendantIntrinsics aChangeHint &&
        NS_IsHintSubset ClearAncestorIntrinsics aChangeHint then
      -- If ClearDescendantIntrinsics is *not* set, then
      -- ClearAncestorIntrinsics is a non-inherited hint.
      result ||| ClearAncestorIntrinsics
    else result
  result

/-- The condition of the `MOZ_ASSERT` of `NS_HintsNotHandledForDescendantsIn`
("something is inconsistent"), on the `result` that is about to be returned. -/
def NS_HintsNotHandledForDescendantsIn_assert (aChangeHint : Nat) : Bool :=
  NS_IsHintSubset (NS_HintsNotHandledForDescendantsIn aChangeHint)
    nsChangeHint_Hints_NotHandledForDescendants

def NS_HintsHandledForDescendantsIn (aChangeHint : Nat) : Nat :=
  aChangeHint &&& nsChangeHint_not (NS_HintsNotHandledForDescendantsIn aChangeHint)

/-- The local `result` of `NS_RemoveSubsumedHints` when control reaches the
second `if`: the hints of `aOurChange` not handled by the ancestor, with
`NeedReflow` added when a hint that needs a reflow is among them. -/
def NS_RemoveSubsumedHints_reflowAdded (aOurChange aHintsHandled : Nat) : Nat :=
  let result :=
    aOurChange &&& nsChangeHint_not (NS_HintsHandledForDescendantsIn aHintsHandled)
  let result :=
    if (result &&&
        (ClearAncestorIntrinsics |||
         ClearDescendantIntrinsics ||| NeedDirtyReflow |||
         ReflowChangesSizeOrPosition |||
         UpdateComputedBSize)) != 0 then
      result ||| NeedReflow
    else result
  result

/-- Returns the change hints in `aOurChange` that are not subsumed by those in
`aHintsHandled` (which are hints that have been handled by an ancestor).  The
`MOZ_ASSERT` inside the second `if` is `NS_RemoveSubsumedHints_assert`. -/
def NS_RemoveSubsumedHints (aOurChange aHintsHandled : Nat) : Nat :=
  let result := NS_RemoveSubsumedHints_reflowAdded aOurChange aHintsHandled
  let result :=
    if (result &&& ClearDescendantIntrinsics) != 0 then
      result ||| -- ClearAncestorIntrinsics |||
        NeedDirtyReflow
    else result
  result

/-- The condition of the `MOZ_ASSERT` of `NS_RemoveSubsumedHints`, which is
evaluated only when `result` contains `ClearDescendantIntrinsics`; `true`
when the assertion is not reached. -/
def NS_RemoveSubsumedHints_assert (aOurChange aHintsHandled : Nat) : Bool :=
  let result := NS_RemoveSubsumedHints_reflowAdded aOurChange aHintsHandled
  if (result &&& ClearDescendantIntrinsics) != 0 then
    (result &&& ClearAncestorIntrinsics) != 0
  else true

/-! ## Documented constraints and the reference form of the reducer -/

/-- The implication rules that the comments of the enumerators state:
`ClearAncestorIntrinsics`, `NeedDirtyReflow`, `ReflowChangesSizeOrPosition`
and `UpdateComputedBSize` "must not be set without setting NeedReflow", and
`ClearDescendantIntrinsics` "must not be set without also setting
ClearAncestorIntrinsics, NeedDirtyReflow and nsChangeHint::NeedReflow". -/
def nsChangeHint_documentedRulesHold (aChangeHint : Nat) : Bool :=
  (!NS_IsHintSubset ClearAncestorIntrinsics aChangeHint ||
    NS_IsHintSubset NeedReflow aChangeHint) &&
  (!NS_IsHintSubset ClearDescendantIntrinsics aChangeHint ||
    (NS_IsHintSubset ClearAncestorIntrinsics aChangeHint &&
     NS_IsHintSubset NeedDirtyReflow aChangeHint &&
     NS_IsHintSubset NeedReflow aChangeHint)) &&
  (!NS_IsHintSubset NeedDirtyReflow aChangeHint ||
    NS_IsHintSubset NeedReflow aChangeHint) &&
  (!NS_IsHintSubset ReflowChangesSizeOrPosition aChangeHint ||
    NS_IsHintSubset NeedReflow aChangeHint) &&
  (!NS_IsHintSubset UpdateComputedBSize aChangeHint ||
    NS_IsHintSubset NeedReflow aChangeHint)

/-- The reference set for `NS_HintsNotHandledForDescendantsIn`, written from
the rules of the specification and not from the code: the never-handled hints
of `e`, together with `NeedReflow` and `ReflowChangesSizeOrPosition` of `e`
when `NeedDirtyReflow` is not in `e`, together with `ClearAncestorIntrinsics`
of `e` when `ClearDescendantIntrinsics` is not in `e`. -/
def notHandledForDescendants_reference (e : Nat) : Nat :=
  (e &&& nsChangeHint_Hints_NeverHandledForDescendants) |||
  (if NS_IsHintSubset NeedDirtyReflow e then nsChangeHint.Empty
   else e &&& (NeedReflow ||| ReflowChangesSizeOrPosition)) |||
  (if NS_IsHintSubset ClearDescendantIntrinsics e then nsChangeHint.Empty
   else e &&& ClearAncestorIntrinsics)

/-! ## Bit-level lemmas -/

theorem NS_IsHintSubset_iff_testBit (a b : Nat) :
    NS_IsHintSubset a b = true ↔ ∀ i, a.testBit i = true → b.testBit i = true := by
  unfold NS_IsHintSubset
  rw [beq_iff_eq]
  constructor
  · intro h i hi
    have := congrArg (fun n => Nat.testBit n i) h
    simp only [Nat.testBit_and, hi, Bool.true_and] at this
    exact this
  · intro h
    apply Nat.eq_of_testBit_eq
    intro i
    rw [Nat.testBit_and]
    cases ha : a.testBit i
    · rfl
    · simp [h i ha]

theorem NS_IsHintSubset_bit (k e : Nat) :
    NS_IsHintSubset (1 <<< k) e = e.testBit k := by
  rw [Bool.eq_iff_iff, NS_IsHintSubset_iff_testBit]
  simp only [Nat.one_shiftLeft, Nat.testBit_two_pow, decide_eq_true_eq]
  constructor
  · intro h; exact h k rfl
  · intro h i hi; subst hi; exact h

theorem and_bit_ne_zero (k e : Nat) :
    ((e &&& (1 <<< k)) != 0) = e.testBit k := by
  rw [Nat.one_shiftLeft, Nat.and_two_pow]
  cases e.testBit k <;> simp

theorem testBit_nsChangeHint_not (a : Nat) (h : a < 2 ^ 32) (i : Nat) :
    (nsChangeHint_not a).testBit i = (decide (i < 32) && !a.testBit i) := by
  unfold nsChangeHint_not
  have h1 : 2 ^ 32 - 1 - a = 2 ^ 32 - (a + 1) := by omega
  have h2 : 2 ^ 32 - (a + 1) < 2 ^ 32 := by omega
  rw [h1, Nat.mod_eq_of_lt h2, Nat.testBit_two_pow_sub_succ h]

theorem testBit_ge_32 {a : Nat} (h : a < 2 ^ 32) {i : Nat} (hi : 32 ≤ i) :
    a.testBit i = false :=
  Nat.testBit_lt_two_pow (lt_of_lt_of_le h (Nat.pow_le_pow_right (by decide) hi))

theorem testBit_NS_HintsNotHandledForDescendantsIn (e i : Nat) :
    (NS_HintsNotHandledForDescendantsIn e).testBit i =
      (e.testBit i &&
        (nsChangeHint_Hints_NeverHandledForDescendants.testBit i ||
         (!e.testBit 4 && (decide (1 = i) || decide (23 = i))) ||
         (!e.testBit 3 && decide (2 = i)))) := by
  have n1 : nsChangeHint_Hints_NeverHandledForDescendants.testBit 1 = false := by decide
  have n2 : nsChangeHint_Hints_NeverHandledForDescendants.testBit 2 = false := by decide
  have n23 : nsChangeHint_Hints_NeverHandledForDescendants.testBit 23 = false := by decide
  unfold NS_HintsNotHandledForDescendantsIn
  simp only [NeedDirtyReflow, NeedReflow, ReflowChangesSizeOrPosition,
    ClearDescendantIntrinsics, ClearAncestorIntrinsics, NS_IsHintSubset_bit]
  cases h4 : e.testBit 4 <;> cases h1 : e.testBit 1 <;> cases h23 : e.testBit 23 <;>
    cases h3 : e.testBit 3 <;> cases h2 : e.testBit 2 <;>
    simp only [Bool.not_false, Bool.not_true, Bool.true_and, Bool.false_and, Bool.and_true,
      Bool.and_false, Bool.or_false, Bool.false_or, if_true, if_false, Bool.false_eq_true,
      Nat.testBit_or, Nat.testBit_and, Nat.one_shiftLeft, Nat.testBit_two_pow] <;>
    by_cases i1 : 1 = i <;> by_cases i2 : 2 = i <;> by_cases i23 : 23 = i <;>
    first
      | omega
      | (subst i1; simp [*])
      | (subst i2; simp [*])
      | (subst i23; simp [*])
      | simp [*]

theorem and_ne_zero_eq_true_iff (a m : Nat) :
    ((a &&& m) != 0) = true ↔ ∃ i, a.testBit i = true ∧ m.testBit i = true := by
  rw [bne_iff_ne]
  constructor
  · intro h
    obtain ⟨i, hi⟩ := Nat.ne_zero_implies_bit_true h
    rw [Nat.testBit_and, Bool.and_eq_true] at hi
    exact ⟨i, hi⟩
  · rintro ⟨i, ha, hm⟩ h0
    have h := congrArg (fun n => Nat.testBit n i) h0
    simp [Nat.testBit_and, ha, hm] at h

/-- The hints that make `NS_RemoveSubsumedHints` add `NeedReflow`. -/
theorem reflowMask_ne_zero (r : Nat) :
    ((r &&& (ClearAncestorIntrinsics ||| ClearDescendantIntrinsics ||| NeedDirtyReflow |||
        ReflowChangesSizeOrPosition ||| UpdateComputedBSize)) != 0) =
      (r.testBit 2 || r.testBit 3 || r.testBit 4 || r.testBit 23 || r.testBit 24) := by
  rw [Bool.eq_iff_iff, and_ne_zero_eq_true_iff]
  simp only [ClearAncestorIntrinsics, ClearDescendantIntrinsics, NeedDirtyReflow,
    ReflowChangesSizeOrPosition, UpdateComputedBSize, Nat.testBit_or, Nat.one_shiftLeft,
    Nat.testBit_two_pow, Bool.or_eq_true, decide_eq_true_eq]
  constructor
  · rintro ⟨i, hi, ((((h | h) | h) | h) | h)⟩ <;> subst h <;> simp [hi]
  · rintro ((((h | h) | h) | h) | h)
    · exact ⟨2, h, by simp⟩
    · exact ⟨3, h, by simp⟩
    · exact ⟨4, h, by simp⟩
    · exact ⟨23, h, by simp⟩
    · exact ⟨24, h, by simp⟩

theorem NS_HintsNotHandledForDescendantsIn_lt (e : Nat) :
    NS_HintsNotHandledForDescendantsIn e < 2 ^ 32 := by
  apply Nat.lt_pow_two_of_testBit
  intro i hi
  have hn : nsChangeHint_Hints_NeverHandledForDescendants.testBit i = false :=
    testBit_ge_32 (by decide) hi
  have h1 : ¬ 1 = i := by omega
  have h2 : ¬ 2 = i := by omega
  have h23 : ¬ 23 = i := by omega
  simp [testBit_NS_HintsNotHandledForDescendantsIn, hn, h1, h2, h23]

theorem testBit_NS_HintsHandledForDescendantsIn (e i : Nat) :
    (NS_HintsHandledForDescendantsIn e).testBit i =
      (e.testBit i && decide (i < 32) &&
        !(NS_HintsNotHandledForDescendantsIn e).testBit i) := by
  unfold NS_HintsHandledForDescendantsIn
  rw [Nat.testBit_and, testBit_nsChangeHint_not _ (NS_HintsNotHandledForDescendantsIn_lt e),
    Bool.and_assoc]

theorem testBit_NS_RemoveSubsumedHints_reflowAdded (own anc i : Nat) :
    (NS_RemoveSubsumedHints_reflowAdded own anc).testBit i =
      ((own &&& nsChangeHint_not (NS_HintsHandledForDescendantsIn anc)).testBit i ||
        (decide (1 = i) &&
          ((own &&& nsChangeHint_not (NS_HintsHandledForDescendantsIn anc)) &&&
            (ClearAncestorIntrinsics ||| ClearDescendantIntrinsics ||| NeedDirtyReflow |||
              ReflowChangesSizeOrPosition ||| UpdateComputedBSize) != 0))) := by
  unfold NS_RemoveSubsumedHints_reflowAdded
  cases h : ((own &&& nsChangeHint_not (NS_HintsHandledForDescendantsIn anc)) &&&
            (ClearAncestorIntrinsics ||| ClearDescendantIntrinsics ||| NeedDirtyReflow |||
              ReflowChangesSizeOrPosition ||| UpdateComputedBSize) != 0)
  · simp only [h, Bool.false_eq_true, if_false, Bool.and_false, Bool.or_false]
  · simp only [h, if_true, Bool.and_true, Nat.testBit_or, NeedReflow, Nat.one_shiftLeft,
      Nat.testBit_two_pow]

theorem testBit_NS_RemoveSubsumedHints (own anc i : Nat) :
    (NS_RemoveSubsumedHints own anc).testBit i =
      ((NS_RemoveSubsumedHints_reflowAdded own anc).testBit i ||
        (decide (4 = i) && (NS_RemoveSubsumedHints_reflowAdded own anc).testBit 3)) := by
  unfold NS_RemoveSubsumedHints
  simp only [ClearDescendantIntrinsics, and_bit_ne_zero]
  cases h : (NS_RemoveSubsumedHints_reflowAdded own anc).testBit 3
  · simp only [Bool.false_eq_true, if_false, Bool.and_false, Bool.or_false]
  · simp only [if_true, Bool.and_true, Nat.testBit_or, NeedDirtyReflow, Nat.one_shiftLeft,
      Nat.testBit_two_pow]

theorem testBit_NS_HintsNotHandledForDescendantsIn_imp (e i : Nat)
    (h : (NS_HintsNotHandledForDescendantsIn e).testBit i = true) : e.testBit i = true := by
  rw [testBit_NS_HintsNotHandledForDescendantsIn, Bool.and_eq_true] at h
  exact h.1

theorem NS_HintsHandledForDescendantsIn_lt (e : Nat) :
    NS_HintsHandledForDescendantsIn e < 2 ^ 32 := by
  apply Nat.lt_pow_two_of_testBit
  intro i hi
  have h : ¬ i < 32 := by omega
  simp [testBit_NS_HintsHandledForDescendantsIn, h]

/-- Bit `i` of the hints of `own` that the ancestor did not handle. -/
theorem testBit_residual (own anc i : Nat) :
    (own &&& nsChangeHint_not (NS_HintsHandledForDescendantsIn anc)).testBit i =
      (own.testBit i && decide (i < 32) &&
        !(NS_HintsHandledForDescendantsIn anc).testBit i) := by
  rw [Nat.testBit_and, testBit_nsChangeHint_not _ (NS_HintsHandledForDescendantsIn_lt anc),
    Bool.and_assoc]

/-- Bit `i` of the handled part, in terms of the bits of `e` alone. -/
theorem testBit_NS_HintsHandledForDescendantsIn_bits (e i : Nat) :
    (NS_HintsHandledForDescendantsIn e).testBit i =
      (e.testBit i && decide (i < 32) &&
        !nsChangeHint_Hints_NeverHandledForDescendants.testBit i &&
        (e.testBit 4 || !(decide (1 = i) || decide (23 = i))) &&
        (e.testBit 3 || !decide (2 = i))) := by
  rw [testBit_NS_HintsHandledForDescendantsIn, testBit_NS_HintsNotHandledForDescendantsIn]
  cases e.testBit i <;> cases nsChangeHint_Hints_NeverHandledForDescendants.testBit i <;>
    cases e.testBit 4 <;> cases e.testBit 3 <;> cases decide (1 = i) <;>
    cases decide (23 = i) <;> cases decide (2 = i) <;> cases decide (i < 32) <;> rfl

/-- Bit `i` of the result of `NS_RemoveSubsumedHints`, in terms of the bits of
the hints of `own` that the ancestor did not handle. -/
theorem testBit_NS_RemoveSubsumedHints_residual (own anc i : Nat) :
    (NS_RemoveSubsumedHints own anc).testBit i =
      ((own &&& nsChangeHint_not (NS_HintsHandledForDescendantsIn anc)).testBit i ||
        (decide (1 = i) &&
          ((own &&& nsChangeHint_not (NS_HintsHandledForDescendantsIn anc)).testBit 2 ||
           (own &&& nsChangeHint_not (NS_HintsHandledForDescendantsIn anc)).testBit 3 ||
           (own &&& nsChangeHint_not (NS_HintsHandledForDescendantsIn anc)).testBit 4 ||
           (own &&& nsChangeHint_not (NS_HintsHandledForDescendantsIn anc)).testBit 23 ||
           (own &&& nsChangeHint_not (NS_HintsHandledForDescendantsIn anc)).testBit 24)) ||
        (decide (4 = i) &&
          (own &&& nsChangeHint_not (NS_HintsHandledForDescendantsIn anc)).testBit 3)) := by
  have h13 : decide (1 = 3) = false := by decide
  rw [testBit_NS_RemoveSubsumedHints, testBit_NS_RemoveSubsumedHints_reflowAdded,
    testBit_NS_RemoveSubsumedHints_reflowAdded own anc 3, reflowMask_ne_zero, h13,
    Bool.false_and, Bool.or_false]

/-- A hint of `own` that the ancestor did not handle is below bit 32 and not
in the ancestor's handled part. -/
theorem testBit_residual_imp (own anc k : Nat)
    (h : (own &&& nsChangeHint_not (NS_HintsHandledForDescendantsIn anc)).testBit k = true) :
    k < 32 ∧ (NS_HintsHandledForDescendantsIn anc).testBit k = false := by
  rw [testBit_residual] at h
  simp only [Bool.and_eq_true, decide_eq_true_eq, Bool.not_eq_true'] at h
  exact ⟨h.1.2, h.2⟩

/-! ## The claims -/

/-- C1: the three category masks partition the 32-bit universe exactly: the
`static_assert` holds, the pairwise intersections are `Empty`, the union is
`All_Hints = 0xFFFFFFFF`, and each bit position 0..31 is set in exactly one of
the three masks. -/
theorem categories_partition_all_hints :
    nsChangeHint_Hints_static_assert = true ∧
    nsChangeHint_Hints_AlwaysHandledForDescendants &&&
      nsChangeHint_Hints_NeverHandledForDescendants = nsChangeHint.Empty ∧
    nsChangeHint_Hints_AlwaysHandledForDescendants &&&
      nsChangeHint_Hints_SometimesHandledForDescendants = nsChangeHint.Empty ∧
    nsChangeHint_Hints_NeverHandledForDescendants &&&
      nsChangeHint_Hints_SometimesHandledForDescendants = nsChangeHint.Empty ∧
    nsChangeHint_Hints_AlwaysHandledForDescendants |||
      nsChangeHint_Hints_NeverHandledForDescendants |||
      nsChangeHint_Hints_SometimesHandledForDescendants = All_Hints ∧
    All_Hints = 0xFFFFFFFF ∧
    ∀ i, i < 32 →
      (nsChangeHint_Hints_AlwaysHandledForDescendants.testBit i).toNat +
      (nsChangeHint_Hints_NeverHandledForDescendants.testBit i).toNat +
      (nsChangeHint_Hints_SometimesHandledForDescendants.testBit i).toNat = 1 := by
  decide

/-- C2: for every 32-bit hint set `e`, the handled and the not-handled part
split `e`: their union is `e` and their intersection is `Empty`. -/
theorem handled_notHandled_split (e : Nat) (he : e < 2 ^ 32) :
    NS_HintsHandledForDescendantsIn e ||| NS_HintsNotHandledForDescendantsIn e = e ∧
    NS_HintsHandledForDescendantsIn e &&& NS_HintsNotHandledForDescendantsIn e = nsChangeHint.Empty := by
  constructor
  · apply Nat.eq_of_testBit_eq
    intro i
    have hsub := testBit_NS_HintsNotHandledForDescendantsIn_imp e i
    rw [Nat.testBit_or, testBit_NS_HintsHandledForDescendantsIn]
    by_cases hi : i < 32
    · cases hn : (NS_HintsNotHandledForDescendantsIn e).testBit i
      · simp [hi]
      · simp [hsub hn]
    · have h0 := testBit_ge_32 he (Nat.le_of_not_lt hi)
      cases hn : (NS_HintsNotHandledForDescendantsIn e).testBit i
      · simp [h0]
      · rw [hsub hn] at h0
        exact absurd h0 (by decide)
  · apply Nat.eq_of_testBit_eq
    intro i
    rw [Nat.testBit_and, testBit_NS_HintsHandledForDescendantsIn]
    cases (NS_HintsNotHandledForDescendantsIn e).testBit i <;> simp [nsChangeHint.Empty]

/-- The split of C2 at `{NeedReflow, ClearAncestorIntrinsics, RepaintFrame,
UpdateOverflow}`. -/
theorem handled_notHandled_split_witness :
    NeedReflow ||| ClearAncestorIntrinsics ||| RepaintFrame ||| UpdateOverflow < 2 ^ 32 ∧
    NS_HintsHandledForDescendantsIn
        (NeedReflow ||| ClearAncestorIntrinsics ||| RepaintFrame ||| UpdateOverflow) |||
      NS_HintsNotHandledForDescendantsIn
        (NeedReflow ||| ClearAncestorIntrinsics ||| RepaintFrame ||| UpdateOverflow) =
      NeedReflow ||| ClearAncestorIntrinsics ||| RepaintFrame ||| UpdateOverflow ∧
    NS_HintsHandledForDescendantsIn
        (NeedReflow ||| ClearAncestorIntrinsics ||| RepaintFrame ||| UpdateOverflow) &&&
      NS_HintsNotHandledForDescendantsIn
        (NeedReflow ||| ClearAncestorIntrinsics ||| RepaintFrame ||| UpdateOverflow) =
      nsChangeHint.Empty :=
  ⟨by decide,
   handled_notHandled_split
     (NeedReflow ||| ClearAncestorIntrinsics ||| RepaintFrame ||| UpdateOverflow)
     (by decide)⟩

/-- C3: for every hint set `e` the `MOZ_ASSERT` of
`NS_HintsNotHandledForDescendantsIn` holds, that is, the result is a subset of
the never-handled and the sometimes-handled hints; no always-handled hint is
in the result. -/
theorem notHandled_assert_holds (e : Nat) :
    NS_HintsNotHandledForDescendantsIn_assert e = true ∧
    NS_HintsNotHandledForDescendantsIn e &&&
      nsChangeHint_Hints_AlwaysHandledForDescendants = nsChangeHint.Empty := by
  have hdisj : ∀ i, (nsChangeHint_Hints_NeverHandledForDescendants.testBit i &&
      nsChangeHint_Hints_AlwaysHandledForDescendants.testBit i) = false := by
    intro i
    have h : nsChangeHint_Hints_NeverHandledForDescendants &&&
        nsChangeHint_Hints_AlwaysHandledForDescendants = 0 := by decide
    have h' := congrArg (fun n => Nat.testBit n i) h
    simpa [Nat.testBit_and] using h'
  have a1 : nsChangeHint_Hints_AlwaysHandledForDescendants.testBit 1 = false := by decide
  have a2 : nsChangeHint_Hints_AlwaysHandledForDescendants.testBit 2 = false := by decide
  have a23 : nsChangeHint_Hints_AlwaysHandledForDescendants.testBit 23 = false := by decide
  constructor
  · unfold NS_HintsNotHandledForDescendantsIn_assert
    rw [NS_IsHintSubset_iff_testBit]
    intro i
    rw [testBit_NS_HintsNotHandledForDescendantsIn]
    simp only [nsChangeHint_Hints_NotHandledForDescendants,
      nsChangeHint_Hints_SometimesHandledForDescendants, ClearAncestorIntrinsics, NeedReflow,
      ReflowChangesSizeOrPosition, Nat.testBit_or, Nat.one_shiftLeft, Nat.testBit_two_pow]
    intro h
    simp only [Bool.and_eq_true, Bool.or_eq_true, decide_eq_true_eq] at h ⊢
    tauto
  · apply Nat.eq_of_testBit_eq
    intro i
    rw [Nat.testBit_and, testBit_NS_HintsNotHandledForDescendantsIn]
    have hd := hdisj i
    by_cases i1 : 1 = i
    · subst i1; simp [a1, nsChangeHint.Empty]
    by_cases i2 : 2 = i
    · subst i2; simp [a2, nsChangeHint.Empty]
    by_cases i23 : 23 = i
    · subst i23; simp [a23, nsChangeHint.Empty]
    cases hn : nsChangeHint_Hints_NeverHandledForDescendants.testBit i <;>
      simp_all [nsChangeHint.Empty]

/-- C4: `NS_IsHintSubset a b` is true if and only if every bit position that
is set in `a` is also set in `b`. -/
theorem isHintSubset_iff_bits (a b : Nat) :
    NS_IsHintSubset a b = true ↔ ∀ i, a.testBit i = true → b.testBit i = true :=
  NS_IsHintSubset_iff_testBit a b

/-- C5 (counterexample): with `aOurChange = {ClearAncestorIntrinsics}` and
nothing handled by an ancestor, `NS_RemoveSubsumedHints` adds `NeedReflow`, so
its result is not a subset of `aOurChange`. -/
theorem removeSubsumed_not_subset_counterexample :
    NS_RemoveSubsumedHints ClearAncestorIntrinsics nsChangeHint.Empty =
      ClearAncestorIntrinsics ||| NeedReflow ∧
    NS_IsHintSubset (NS_RemoveSubsumedHints ClearAncestorIntrinsics nsChangeHint.Empty)
      ClearAncestorIntrinsics = false := by
  decide

/-- C5 (amended): when `aOurChange` contains `NeedReflow` whenever it contains
one of the hints that need a reflow, and contains `NeedDirtyReflow` whenever it
contains `ClearDescendantIntrinsics`, the result of `NS_RemoveSubsumedHints` is
a subset of `aOurChange`, whatever the ancestor handled. -/
theorem removeSubsumed_subset_of_own (aOurChange aHintsHandled : Nat)
    (hReflow : ((aOurChange &&&
        (ClearAncestorIntrinsics ||| ClearDescendantIntrinsics ||| NeedDirtyReflow |||
          ReflowChangesSizeOrPosition ||| UpdateComputedBSize)) != 0) = true →
        NS_IsHintSubset NeedReflow aOurChange = true)
    (hDirty : NS_IsHintSubset ClearDescendantIntrinsics aOurChange = true →
        NS_IsHintSubset NeedDirtyReflow aOurChange = true) :
    NS_IsHintSubset (NS_RemoveSubsumedHints aOurChange aHintsHandled) aOurChange = true := by
  rw [reflowMask_ne_zero] at hReflow
  simp only [NeedReflow, ClearDescendantIntrinsics, NeedDirtyReflow, NS_IsHintSubset_bit]
    at hReflow hDirty
  rw [NS_IsHintSubset_iff_testBit]
  intro i hi
  rw [testBit_NS_RemoveSubsumedHints] at hi
  simp only [testBit_NS_RemoveSubsumedHints_reflowAdded, reflowMask_ne_zero, Nat.testBit_and,
    Bool.or_eq_true, Bool.and_eq_true, decide_eq_true_eq] at hi
  rcases hi with (h | ⟨h1, h⟩) | ⟨h4, h | ⟨h13, _⟩⟩
  · exact h.1
  · subst h1
    apply hReflow
    simp only [Bool.or_eq_true]
    tauto
  · subst h4
    exact hDirty h.1
  · omega

/-- The subset property of C5 for a node with all reflow hints and
`RepaintFrame`, under an ancestor that handled `RepaintFrame`,
`NeedDirtyReflow` and `NeedReflow`. -/
theorem removeSubsumed_subset_of_own_witness :
    NS_IsHintSubset
      (NS_RemoveSubsumedHints
        (NeedReflow ||| ClearAncestorIntrinsics ||| ClearDescendantIntrinsics |||
          NeedDirtyReflow ||| RepaintFrame)
        (RepaintFrame ||| NeedDirtyReflow ||| NeedReflow))
      (NeedReflow ||| ClearAncestorIntrinsics ||| ClearDescendantIntrinsics |||
          NeedDirtyReflow ||| RepaintFrame) = true :=
  removeSubsumed_subset_of_own _ _ (by decide) (by decide)

/-- C6: if the hints of `aOurChange` that the ancestor did not handle contain
one of `ClearAncestorIntrinsics`, `ClearDescendantIntrinsics`,
`NeedDirtyReflow`, `ReflowChangesSizeOrPosition`, `UpdateComputedBSize`, then
the result of `NS_RemoveSubsumedHints` contains `NeedReflow`. -/
theorem removeSubsumed_adds_needReflow (aOurChange aHintsHandled : Nat)
    (h : (((aOurChange &&& nsChangeHint_not (NS_HintsHandledForDescendantsIn aHintsHandled)) &&&
        (ClearAncestorIntrinsics ||| ClearDescendantIntrinsics ||| NeedDirtyReflow |||
          ReflowChangesSizeOrPosition ||| UpdateComputedBSize)) != 0) = true) :
    NS_IsHintSubset NeedReflow (NS_RemoveSubsumedHints aOurChange aHintsHandled) = true := by
  simp only [NeedReflow, NS_IsHintSubset_bit]
  rw [testBit_NS_RemoveSubsumedHints, testBit_NS_RemoveSubsumedHints_reflowAdded, h]
  simp

/-- The re-escalation of C6 at `aOurChange = {UpdateComputedBSize,
RepaintFrame}`: `NeedReflow` is added although the node did not have it. -/
theorem removeSubsumed_adds_needReflow_witness :
    NS_IsHintSubset NeedReflow
      (NS_RemoveSubsumedHints (UpdateComputedBSize ||| RepaintFrame)
        (NeedReflow ||| RepaintFrame ||| UpdateComputedBSize)) = true :=
  removeSubsumed_adds_needReflow _ _ (by decide)

/-- C7 (counterexample): `e = {NeedReflow}` contains `NeedReflow` and not
`NeedDirtyReflow`, and `ReflowChangesSizeOrPosition` is not in
`NS_HintsNotHandledForDescendantsIn e`, which is `{NeedReflow}`. -/
theorem notHandled_not_both_counterexample :
    NS_IsHintSubset NeedReflow NeedReflow = true ∧
    NS_IsHintSubset NeedDirtyReflow NeedReflow = false ∧
    NS_HintsNotHandledForDescendantsIn NeedReflow = NeedReflow ∧
    NS_IsHintSubset ReflowChangesSizeOrPosition
      (NS_HintsNotHandledForDescendantsIn NeedReflow) = false := by
  decide

/-- C7 (amended): for a hint set `e` that does not contain `NeedDirtyReflow`,
each of `NeedReflow` and `ReflowChangesSizeOrPosition` that `e` contains is in
`NS_HintsNotHandledForDescendantsIn e`. -/
theorem notHandled_keeps_reflow_hints (e : Nat)
    (hd : NS_IsHintSubset NeedDirtyReflow e = false) :
    (NS_IsHintSubset NeedReflow e = true →
      NS_IsHintSubset NeedReflow (NS_HintsNotHandledForDescendantsIn e) = true) ∧
    (NS_IsHintSubset ReflowChangesSizeOrPosition e = true →
      NS_IsHintSubset ReflowChangesSizeOrPosition
        (NS_HintsNotHandledForDescendantsIn e) = true) := by
  simp only [NeedReflow, NeedDirtyReflow, ReflowChangesSizeOrPosition, NS_IsHintSubset_bit,
    testBit_NS_HintsNotHandledForDescendantsIn] at hd ⊢
  constructor <;> intro h <;> simp [h, hd]

/-- The rule of C7 at `{NeedReflow, ReflowChangesSizeOrPosition,
RepaintFrame}`. -/
theorem notHandled_keeps_reflow_hints_witness :
    NS_IsHintSubset NeedDirtyReflow
      (NeedReflow ||| ReflowChangesSizeOrPosition ||| RepaintFrame) = false ∧
    NS_IsHintSubset NeedReflow
      (NS_HintsNotHandledForDescendantsIn
        (NeedReflow ||| ReflowChangesSizeOrPosition ||| RepaintFrame)) = true ∧
    NS_IsHintSubset ReflowChangesSizeOrPosition
      (NS_HintsNotHandledForDescendantsIn
        (NeedReflow ||| ReflowChangesSizeOrPosition ||| RepaintFrame)) = true :=
  ⟨by decide,
   (notHandled_keeps_reflow_hints (NeedReflow ||| ReflowChangesSizeOrPosition ||| RepaintFrame)
      (by decide)).1 (by decide),
   (notHandled_keeps_reflow_hints (NeedReflow ||| ReflowChangesSizeOrPosition ||| RepaintFrame)
      (by decide)).2 (by decide)⟩

/-- C8: for a hint set `e` that contains `NeedDirtyReflow`, neither
`NeedReflow` nor `ReflowChangesSizeOrPosition` is in
`NS_HintsNotHandledForDescendantsIn e`, and each of the two that `e` contains
is in `NS_HintsHandledForDescendantsIn e`. -/
theorem notHandled_drops_reflow_hints (e : Nat)
    (hd : NS_IsHintSubset NeedDirtyReflow e = true) :
    NS_IsHintSubset NeedReflow (NS_HintsNotHandledForDescendantsIn e) = false ∧
    NS_IsHintSubset ReflowChangesSizeOrPosition
      (NS_HintsNotHandledForDescendantsIn e) = false ∧
    (NS_IsHintSubset NeedReflow e = true →
      NS_IsHintSubset NeedReflow (NS_HintsHandledForDescendantsIn e) = true) ∧
    (NS_IsHintSubset ReflowChangesSizeOrPosition e = true →
      NS_IsHintSubset ReflowChangesSizeOrPosition
        (NS_HintsHandledForDescendantsIn e) = true) := by
  have n1 : nsChangeHint_Hints_NeverHandledForDescendants.testBit 1 = false := by decide
  have n23 : nsChangeHint_Hints_NeverHandledForDescendants.testBit 23 = false := by decide
  simp only [NeedReflow, NeedDirtyReflow, ReflowChangesSizeOrPosition, NS_IsHintSubset_bit,
    testBit_NS_HintsHandledForDescendantsIn, testBit_NS_HintsNotHandledForDescendantsIn]
    at hd ⊢
  refine ⟨?_, ?_, ?_, ?_⟩
  · simp [hd, n1]
  · simp [hd, n23]
  · intro h; simp [h, hd, n1]
  · intro h; simp [h, hd, n23]

/-- The rule of C8 at `{NeedReflow, ReflowChangesSizeOrPosition,
NeedDirtyReflow}`. -/
theorem notHandled_drops_reflow_hints_witness :
    NS_IsHintSubset NeedDirtyReflow
      (NeedReflow ||| ReflowChangesSizeOrPosition ||| NeedDirtyReflow) = true ∧
    NS_IsHintSubset NeedReflow
      (NS_HintsNotHandledForDescendantsIn
        (NeedReflow ||| ReflowChangesSizeOrPosition ||| NeedDirtyReflow)) = false ∧
    NS_IsHintSubset ReflowChangesSizeOrPosition
      (NS_HintsNotHandledForDescendantsIn
        (NeedReflow ||| ReflowChangesSizeOrPosition ||| NeedDirtyReflow)) = false ∧
    NS_IsHintSubset NeedReflow
      (NS_HintsHandledForDescendantsIn
        (NeedReflow ||| ReflowChangesSizeOrPosition ||| NeedDirtyReflow)) = true ∧
    NS_IsHintSubset ReflowChangesSizeOrPosition
      (NS_HintsHandledForDescendantsIn
        (NeedReflow ||| ReflowChangesSizeOrPosition ||| NeedDirtyReflow)) = true :=
  ⟨by decide,
   (notHandled_drops_reflow_hints
      (NeedReflow ||| ReflowChangesSizeOrPosition ||| NeedDirtyReflow) (by decide)).1,
   (notHandled_drops_reflow_hints
      (NeedReflow ||| ReflowChangesSizeOrPosition ||| NeedDirtyReflow) (by decide)).2.1,
   (notHandled_drops_reflow_hints
      (NeedReflow ||| ReflowChangesSizeOrPosition ||| NeedDirtyReflow) (by decide)).2.2.1
      (by decide),
   (notHandled_drops_reflow_hints
      (NeedReflow ||| ReflowChangesSizeOrPosition ||| NeedDirtyReflow) (by decide)).2.2.2
      (by decide)⟩

/-- C9: `ClearAncestorIntrinsics` is in `NS_HintsNotHandledForDescendantsIn e`
if and only if `e` contains `ClearAncestorIntrinsics` and does not contain
`ClearDescendantIntrinsics`; for
`e = {ClearDescendantIntrinsics, ClearAncestorIntrinsics}` the result is
`Empty`. -/
theorem notHandled_clearAncestorIntrinsics_iff :
    (∀ e : Nat,
      NS_IsHintSubset ClearAncestorIntrinsics (NS_HintsNotHandledForDescendantsIn e) = true ↔
        (NS_IsHintSubset ClearAncestorIntrinsics e = true ∧
          NS_IsHintSubset ClearDescendantIntrinsics e = false)) ∧
    NS_HintsNotHandledForDescendantsIn
      (ClearDescendantIntrinsics ||| ClearAncestorIntrinsics) = nsChangeHint.Empty := by
  have n2 : nsChangeHint_Hints_NeverHandledForDescendants.testBit 2 = false := by decide
  refine ⟨?_, by decide⟩
  intro e
  simp only [ClearAncestorIntrinsics, ClearDescendantIntrinsics, NS_IsHintSubset_bit,
    testBit_NS_HintsNotHandledForDescendantsIn]
  simp [n2]

/-- C10: if the result of `NS_RemoveSubsumedHints` contains
`ClearDescendantIntrinsics`, it also contains `NeedDirtyReflow` and
`NeedReflow`. -/
theorem removeSubsumed_clearDescendant_implies (aOurChange aHintsHandled : Nat)
    (h : NS_IsHintSubset ClearDescendantIntrinsics
      (NS_RemoveSubsumedHints aOurChange aHintsHandled) = true) :
    NS_IsHintSubset NeedDirtyReflow (NS_RemoveSubsumedHints aOurChange aHintsHandled) = true ∧
    NS_IsHintSubset NeedReflow (NS_RemoveSubsumedHints aOurChange aHintsHandled) = true := by
  simp only [ClearDescendantIntrinsics, NeedDirtyReflow, NeedReflow, NS_IsHintSubset_bit,
    testBit_NS_RemoveSubsumedHints] at h ⊢
  have h3 : (NS_RemoveSubsumedHints_reflowAdded aOurChange aHintsHandled).testBit 3 = true := by
    simpa using h
  have hp :
      (aOurChange &&& nsChangeHint_not (NS_HintsHandledForDescendantsIn aHintsHandled)).testBit 3
        = true := by
    rw [testBit_NS_RemoveSubsumedHints_reflowAdded] at h3
    simpa using h3
  constructor
  · simp [h3]
  · rw [testBit_NS_RemoveSubsumedHints_reflowAdded, reflowMask_ne_zero, hp]
    simp

/-- The implication of C10 at `aOurChange = {ClearDescendantIntrinsics,
ClearAncestorIntrinsics}`. -/
theorem removeSubsumed_clearDescendant_implies_witness :
    NS_IsHintSubset ClearDescendantIntrinsics
      (NS_RemoveSubsumedHints (ClearDescendantIntrinsics ||| ClearAncestorIntrinsics)
        (NeedReflow ||| NeedDirtyReflow)) = true ∧
    NS_IsHintSubset NeedDirtyReflow
      (NS_RemoveSubsumedHints (ClearDescendantIntrinsics ||| ClearAncestorIntrinsics)
        (NeedReflow ||| NeedDirtyReflow)) = true ∧
    NS_IsHintSubset NeedReflow
      (NS_RemoveSubsumedHints (ClearDescendantIntrinsics ||| ClearAncestorIntrinsics)
        (NeedReflow ||| NeedDirtyReflow)) = true :=
  ⟨by decide,
   removeSubsumed_clearDescendant_implies
     (ClearDescendantIntrinsics ||| ClearAncestorIntrinsics) (NeedReflow ||| NeedDirtyReflow)
     (by decide)⟩

/-- C11: `NS_RemoveSubsumedHints {NeedReflow, RepaintFrame}
{RepaintFrame, SchedulePaint}` is exactly `{NeedReflow}`: the hint the
ancestor handled for descendants is removed and the unhandled hint of the node
is kept. -/
theorem removeSubsumed_scenario_A :
    NS_RemoveSubsumedHints (NeedReflow ||| RepaintFrame) (RepaintFrame ||| SchedulePaint) =
      NeedReflow := by
  decide

/-- C12: when the ancestor's hints contain `ReconstructFrame`,
`NS_RemoveSubsumedHints {ReconstructFrame}` of them is `Empty`. -/
theorem removeSubsumed_reconstructFrame (aHintsHandled : Nat)
    (h : NS_IsHintSubset ReconstructFrame aHintsHandled = true) :
    NS_RemoveSubsumedHints ReconstructFrame aHintsHandled = nsChangeHint.Empty := by
  have n10 : nsChangeHint_Hints_NeverHandledForDescendants.testBit 10 = false := by decide
  simp only [ReconstructFrame, NS_IsHintSubset_bit] at h
  have hpre : ReconstructFrame &&&
      nsChangeHint_not (NS_HintsHandledForDescendantsIn aHintsHandled) = 0 := by
    apply Nat.eq_of_testBit_eq
    intro i
    rw [testBit_residual, Nat.zero_testBit]
    simp only [ReconstructFrame, Nat.one_shiftLeft, Nat.testBit_two_pow]
    by_cases hi : 10 = i
    · subst hi
      simp [testBit_NS_HintsHandledForDescendantsIn_bits, h, n10]
    · simp [hi]
  apply Nat.eq_of_testBit_eq
  intro i
  have h3 : (NS_RemoveSubsumedHints_reflowAdded ReconstructFrame aHintsHandled) = 0 := by
    apply Nat.eq_of_testBit_eq
    intro j
    rw [testBit_NS_RemoveSubsumedHints_reflowAdded, hpre]
    simp
  rw [testBit_NS_RemoveSubsumedHints, h3]
  simp [nsChangeHint.Empty]

/-- The scenario of C12 with an ancestor that handled `ReconstructFrame`,
`NeedReflow` and `UpdateOverflow`. -/
theorem removeSubsumed_reconstructFrame_witness :
    NS_IsHintSubset ReconstructFrame (ReconstructFrame ||| NeedReflow ||| UpdateOverflow)
      = true ∧
    NS_RemoveSubsumedHints ReconstructFrame (ReconstructFrame ||| NeedReflow ||| UpdateOverflow)
      = nsChangeHint.Empty :=
  ⟨by decide,
   removeSubsumed_reconstructFrame (ReconstructFrame ||| NeedReflow ||| UpdateOverflow)
     (by decide)⟩

/-- C13 (counterexample): for `aOurChange = {ClearDescendantIntrinsics}` and
nothing handled by an ancestor, `result` contains `ClearDescendantIntrinsics`
and not `ClearAncestorIntrinsics` when the `MOZ_ASSERT` is reached, so the
assertion fails. -/
theorem removeSubsumed_assert_fails_counterexample :
    ClearDescendantIntrinsics < 2 ^ 32 ∧ nsChangeHint.Empty < 2 ^ 32 ∧
    NS_RemoveSubsumedHints_reflowAdded ClearDescendantIntrinsics nsChangeHint.Empty =
      ClearDescendantIntrinsics ||| NeedReflow ∧
    NS_RemoveSubsumedHints_assert ClearDescendantIntrinsics nsChangeHint.Empty = false := by
  decide

/-- C13 (amended): the `MOZ_ASSERT` of `NS_RemoveSubsumedHints` holds exactly
when `aOurChange` contains `ClearAncestorIntrinsics`, or does not contain
`ClearDescendantIntrinsics`, or `aHintsHandled` contains
`ClearDescendantIntrinsics`. -/
theorem removeSubsumed_assert_iff (aOurChange aHintsHandled : Nat) :
    NS_RemoveSubsumedHints_assert aOurChange aHintsHandled = true ↔
      (NS_IsHintSubset ClearAncestorIntrinsics aOurChange = true ∨
       NS_IsHintSubset ClearDescendantIntrinsics aOurChange = false ∨
       NS_IsHintSubset ClearDescendantIntrinsics aHintsHandled = true) := by
  have n2 : nsChangeHint_Hints_NeverHandledForDescendants.testBit 2 = false := by decide
  have n3 : nsChangeHint_Hints_NeverHandledForDescendants.testBit 3 = false := by decide
  unfold NS_RemoveSubsumedHints_assert
  simp only [ClearAncestorIntrinsics, ClearDescendantIntrinsics, NS_IsHintSubset_bit,
    and_bit_ne_zero, testBit_NS_RemoveSubsumedHints_reflowAdded, testBit_residual,
    testBit_NS_HintsHandledForDescendantsIn_bits, n2, n3]
  cases aOurChange.testBit 2 <;> cases aOurChange.testBit 3 <;>
    cases aHintsHandled.testBit 2 <;> cases aHintsHandled.testBit 3 <;> simp

/-- C14: every derived hint constant respects the implication rules that the
comments of the enumerators state. -/
theorem derived_constants_respect_rules :
    nsChangeHint_documentedRulesHold NS_STYLE_HINT_VISUAL = true ∧
    nsChangeHint_documentedRulesHold nsChangeHint_AllReflowHints = true ∧
    nsChangeHint_documentedRulesHold nsChangeHint_ReflowHintsForISizeChange = true ∧
    nsChangeHint_documentedRulesHold nsChangeHint_ReflowHintsForBSizeChange = true ∧
    nsChangeHint_documentedRulesHold nsChangeHint_ReflowHintsForFloatAreaChange = true ∧
    nsChangeHint_documentedRulesHold NS_STYLE_HINT_REFLOW = true ∧
    nsChangeHint_documentedRulesHold nsChangeHint_Hints_CanIgnoreIfNotVisible = true ∧
    nsChangeHint_documentedRulesHold nsChangeHint_ComprehensiveAddOrRemoveTransform = true := by
  decide

/-- C15: `NS_HintsNotHandledForDescendantsIn` is not monotone: `{NeedReflow}`
is a subset of `{NeedReflow, NeedDirtyReflow}`, and the not-handled part of
the first, `{NeedReflow}`, is not a subset of the not-handled part of the
second, `Empty`. -/
theorem notHandled_not_monotone :
    (∃ a b : Nat, a < 2 ^ 32 ∧ b < 2 ^ 32 ∧ NS_IsHintSubset a b = true ∧
      NS_IsHintSubset (NS_HintsNotHandledForDescendantsIn a)
        (NS_HintsNotHandledForDescendantsIn b) = false) ∧
    NS_IsHintSubset NeedReflow (NeedReflow ||| NeedDirtyReflow) = true ∧
    NS_HintsNotHandledForDescendantsIn NeedReflow = NeedReflow ∧
    NS_HintsNotHandledForDescendantsIn (NeedReflow ||| NeedDirtyReflow) = nsChangeHint.Empty ∧
    NS_IsHintSubset (NS_HintsNotHandledForDescendantsIn NeedReflow)
      (NS_HintsNotHandledForDescendantsIn (NeedReflow ||| NeedDirtyReflow)) = false :=
  ⟨⟨NeedReflow, NeedReflow ||| NeedDirtyReflow, by decide, by decide, by decide, by decide⟩,
   by decide, by decide, by decide, by decide⟩

/-- C16: for every hint set `e`, `NS_HintsNotHandledForDescendantsIn e` is
exactly the reference set: the never-handled hints of `e`, `NeedReflow` and
`ReflowChangesSizeOrPosition` of `e` when `NeedDirtyReflow` is not in `e`, and
`ClearAncestorIntrinsics` of `e` when `ClearDescendantIntrinsics` is not in
`e`; no other rule contributes a bit. -/
theorem notHandled_eq_reference (e : Nat) :
    NS_HintsNotHandledForDescendantsIn e = notHandledForDescendants_reference e := by
  apply Nat.eq_of_testBit_eq
  intro i
  rw [testBit_NS_HintsNotHandledForDescendantsIn]
  unfold notHandledForDescendants_reference
  simp only [NeedDirtyReflow, ClearDescendantIntrinsics, NS_IsHintSubset_bit]
  cases h4 : e.testBit 4 <;> cases h3 : e.testBit 3 <;>
    simp only [Bool.false_eq_true, if_true, if_false, Nat.testBit_or, Nat.testBit_and,
      nsChangeHint.Empty, Nat.zero_testBit, NeedReflow, ReflowChangesSizeOrPosition,
      ClearAncestorIntrinsics, Nat.one_shiftLeft, Nat.testBit_two_pow] <;>
    cases e.testBit i <;>
    cases nsChangeHint_Hints_NeverHandledForDescendants.testBit i <;>
    cases decide (1 = i) <;> cases decide (23 = i) <;> cases decide (2 = i) <;> rfl

/-- C17: when `aOurChange` does not contain `ClearDescendantIntrinsics`
without `ClearAncestorIntrinsics`, the `MOZ_ASSERT` of
`NS_RemoveSubsumedHints` holds for every `aHintsHandled`; and the hints that
an ancestor handled for descendants never contain `ClearAncestorIntrinsics`
without `ClearDescendantIntrinsics`. -/
theorem removeSubsumed_assert_of_wellFormed (aOurChange aHintsHandled : Nat)
    (hown : NS_IsHintSubset ClearDescendantIntrinsics aOurChange = true →
      NS_IsHintSubset ClearAncestorIntrinsics aOurChange = true) :
    NS_RemoveSubsumedHints_assert aOurChange aHintsHandled = true ∧
    (NS_IsHintSubset ClearAncestorIntrinsics
        (NS_HintsHandledForDescendantsIn aHintsHandled) = true →
      NS_IsHintSubset ClearDescendantIntrinsics
        (NS_HintsHandledForDescendantsIn aHintsHandled) = true) := by
  have n2 : nsChangeHint_Hints_NeverHandledForDescendants.testBit 2 = false := by decide
  have n3 : nsChangeHint_Hints_NeverHandledForDescendants.testBit 3 = false := by decide
  unfold NS_RemoveSubsumedHints_assert
  simp only [ClearAncestorIntrinsics, ClearDescendantIntrinsics, NS_IsHintSubset_bit,
    and_bit_ne_zero, testBit_NS_RemoveSubsumedHints_reflowAdded, testBit_residual,
    testBit_NS_HintsHandledForDescendantsIn_bits, n2, n3] at hown ⊢
  revert hown
  cases aOurChange.testBit 2 <;> cases aOurChange.testBit 3 <;>
    cases aHintsHandled.testBit 2 <;> cases aHintsHandled.testBit 3 <;> simp

/-- The assertion of C17 for a node with `ClearDescendantIntrinsics` and
`ClearAncestorIntrinsics` under an ancestor with `ClearAncestorIntrinsics` and
`NeedReflow`. -/
theorem removeSubsumed_assert_of_wellFormed_witness :
    NS_IsHintSubset ClearAncestorIntrinsics
      (ClearDescendantIntrinsics ||| ClearAncestorIntrinsics) = true ∧
    NS_RemoveSubsumedHints_assert (ClearDescendantIntrinsics ||| ClearAncestorIntrinsics)
      (ClearAncestorIntrinsics ||| NeedReflow) = true :=
  ⟨by decide,
   (removeSubsumed_assert_of_wellFormed (ClearDescendantIntrinsics ||| ClearAncestorIntrinsics)
      (ClearAncestorIntrinsics ||| NeedReflow) (fun _ => by decide)).1⟩

/-- C18 (counterexample): a node with all reflow hints under an ancestor that
handled `NeedDirtyReflow` and `NeedReflow` keeps `ClearDescendantIntrinsics`,
so `NeedDirtyReflow`, an always-handled hint of the ancestor, is added back to
the result. -/
theorem removeSubsumed_keeps_handled_counterexample :
    NS_RemoveSubsumedHints
        (ClearDescendantIntrinsics ||| ClearAncestorIntrinsics ||| NeedDirtyReflow |||
          NeedReflow)
        (NeedDirtyReflow ||| NeedReflow) =
      ClearDescendantIntrinsics ||| ClearAncestorIntrinsics ||| NeedDirtyReflow |||
        NeedReflow ∧
    NS_RemoveSubsumedHints
        (ClearDescendantIntrinsics ||| ClearAncestorIntrinsics ||| NeedDirtyReflow |||
          NeedReflow)
        (NeedDirtyReflow ||| NeedReflow) &&&
      ((NeedDirtyReflow ||| NeedReflow) &&&
        nsChangeHint_Hints_AlwaysHandledForDescendants) = NeedDirtyReflow ∧
    NeedDirtyReflow ≠ nsChangeHint.Empty := by
  decide

/-- C18 (amended): of the always-handled hints contained in `aHintsHandled`,
only `NeedDirtyReflow` can appear in the result of `NS_RemoveSubsumedHints`:
the result meets `aHintsHandled ∩ AlwaysHandledForDescendants` in
`{NeedDirtyReflow}` when the result contains `ClearDescendantIntrinsics` and
`aHintsHandled` contains `NeedDirtyReflow`, and in `Empty` otherwise. -/
theorem removeSubsumed_inter_alwaysHandled (aOurChange aHintsHandled : Nat) :
    NS_RemoveSubsumedHints aOurChange aHintsHandled &&&
        (aHintsHandled &&& nsChangeHint_Hints_AlwaysHandledForDescendants) =
      if NS_IsHintSubset ClearDescendantIntrinsics
            (NS_RemoveSubsumedHints aOurChange aHintsHandled) &&
          NS_IsHintSubset NeedDirtyReflow aHintsHandled
      then NeedDirtyReflow else nsChangeHint.Empty := by
  have hdisj : ∀ i, nsChangeHint_Hints_AlwaysHandledForDescendants.testBit i = true →
      nsChangeHint_Hints_NeverHandledForDescendants.testBit i = false := by
    intro i hi
    have h : nsChangeHint_Hints_NeverHandledForDescendants &&&
        nsChangeHint_Hints_AlwaysHandledForDescendants = 0 := by decide
    have h' := congrArg (fun n => Nat.testBit n i) h
    simpa [Nat.testBit_and, hi] using h'
  have a1 : nsChangeHint_Hints_AlwaysHandledForDescendants.testBit 1 = false := by decide
  have a2 : nsChangeHint_Hints_AlwaysHandledForDescendants.testBit 2 = false := by decide
  have a23 : nsChangeHint_Hints_AlwaysHandledForDescendants.testBit 23 = false := by decide
  have a4 : nsChangeHint_Hints_AlwaysHandledForDescendants.testBit 4 = true := by decide
  have n4 : nsChangeHint_Hints_NeverHandledForDescendants.testBit 4 = false := by decide
  have hk : NS_IsHintSubset ClearDescendantIntrinsics
      (NS_RemoveSubsumedHints aOurChange aHintsHandled) =
      (NS_RemoveSubsumedHints_reflowAdded aOurChange aHintsHandled).testBit 3 := by
    simp only [ClearDescendantIntrinsics, NS_IsHintSubset_bit, testBit_NS_RemoveSubsumedHints]
    simp
  rw [hk]
  simp only [NeedDirtyReflow, NS_IsHintSubset_bit]
  apply Nat.eq_of_testBit_eq
  intro i
  have hrhs : (if ((NS_RemoveSubsumedHints_reflowAdded aOurChange aHintsHandled).testBit 3 &&
        aHintsHandled.testBit 4) = true then 1 <<< 4 else nsChangeHint.Empty).testBit i =
      ((NS_RemoveSubsumedHints_reflowAdded aOurChange aHintsHandled).testBit 3 &&
        aHintsHandled.testBit 4 && decide (4 = i)) := by
    cases (NS_RemoveSubsumedHints_reflowAdded aOurChange aHintsHandled).testBit 3 &&
        aHintsHandled.testBit 4
    · simp only [Bool.false_eq_true, if_false, nsChangeHint.Empty, Nat.zero_testBit,
        Bool.false_and]
    · simp only [if_true, Nat.one_shiftLeft, Nat.testBit_two_pow, Bool.true_and]
  rw [hrhs, Nat.testBit_and, Nat.testBit_and, testBit_NS_RemoveSubsumedHints]
  by_cases h4 : 4 = i
  · subst h4
    simp only [testBit_NS_RemoveSubsumedHints_reflowAdded, testBit_residual,
      testBit_NS_HintsHandledForDescendantsIn_bits, a4, n4]
    cases aHintsHandled.testBit 4 <;> simp
  · cases hA : nsChangeHint_Hints_AlwaysHandledForDescendants.testBit i
    · simp [h4]
    · have hn := hdisj i hA
      have i1 : ¬ 1 = i := by rintro rfl; rw [a1] at hA; exact absurd hA (by decide)
      have i2 : ¬ 2 = i := by rintro rfl; rw [a2] at hA; exact absurd hA (by decide)
      have i23 : ¬ 23 = i := by rintro rfl; rw [a23] at hA; exact absurd hA (by decide)
      simp only [testBit_NS_RemoveSubsumedHints_reflowAdded, testBit_residual,
        testBit_NS_HintsHandledForDescendantsIn_bits, hn]
      cases aHintsHandled.testBit i <;> cases aOurChange.testBit i <;> simp [h4, i1, i2, i23]

/-- C19: the result of `NS_RemoveSubsumedHints` contains every hint of
`aOurChange` that the ancestor did not handle, and it is contained in
`aOurChange ∪ {NeedReflow, NeedDirtyReflow}`. -/
theorem removeSubsumed_frame (aOurChange aHintsHandled : Nat) :
    NS_IsHintSubset
      (aOurChange &&& nsChangeHint_not (NS_HintsHandledForDescendantsIn aHintsHandled))
      (NS_RemoveSubsumedHints aOurChange aHintsHandled) = true ∧
    NS_IsHintSubset (NS_RemoveSubsumedHints aOurChange aHintsHandled)
      (aOurChange ||| NeedReflow ||| NeedDirtyReflow) = true := by
  constructor
  · rw [NS_IsHintSubset_iff_testBit]
    intro i hi
    rw [testBit_NS_RemoveSubsumedHints, testBit_NS_RemoveSubsumedHints_reflowAdded, hi]
    simp
  · rw [NS_IsHintSubset_iff_testBit]
    intro i hi
    rw [testBit_NS_RemoveSubsumedHints] at hi
    simp only [testBit_NS_RemoveSubsumedHints_reflowAdded, Nat.testBit_and,
      Bool.or_eq_true, Bool.and_eq_true, decide_eq_true_eq] at hi
    simp only [NeedReflow, NeedDirtyReflow, Nat.testBit_or, Nat.one_shiftLeft,
      Nat.testBit_two_pow, Bool.or_eq_true, decide_eq_true_eq]
    rcases hi with (h | ⟨h1, _⟩) | ⟨h4, _⟩
    · exact Or.inl (Or.inl h.1)
    · exact Or.inl (Or.inr h1)
    · exact Or.inr h4

/-- C20: `NS_HintsHandledForDescendantsIn` is monotone: when `a` is a subset
of `b`, the handled part of `a` is a subset of the handled part of `b`. -/
theorem handled_monotone (a b : Nat) (hab : NS_IsHintSubset a b = true) :
    NS_IsHintSubset (NS_HintsHandledForDescendantsIn a)
      (NS_HintsHandledForDescendantsIn b) = true := by
  rw [NS_IsHintSubset_iff_testBit] at hab ⊢
  intro i
  rw [testBit_NS_HintsHandledForDescendantsIn_bits, testBit_NS_HintsHandledForDescendantsIn_bits]
  have hi := hab i
  have h4 := hab 4
  have h3 := hab 3
  revert hi h4 h3
  cases a.testBit i <;> cases a.testBit 4 <;> cases a.testBit 3 <;>
    cases b.testBit i <;> cases b.testBit 4 <;> cases b.testBit 3 <;> simp <;> tauto

/-- The monotonicity of C20 at `{NeedReflow}` and `{NeedReflow,
NeedDirtyReflow}`, where the not-handled part is not monotone. -/
theorem handled_monotone_witness :
    NS_IsHintSubset NeedReflow (NeedReflow ||| NeedDirtyReflow) = true ∧
    NS_IsHintSubset (NS_HintsHandledForDescendantsIn NeedReflow)
      (NS_HintsHandledForDescendantsIn (NeedReflow ||| NeedDirtyReflow)) = true :=
  ⟨by decide, handled_monotone NeedReflow (NeedReflow ||| NeedDirtyReflow) (by decide)⟩

/-- C21: the handled part is a fixed point: its not-handled part is `Empty`,
and so its handled part is itself. -/
theorem handled_fixed_point (e : Nat) :
    NS_HintsNotHandledForDescendantsIn (NS_HintsHandledForDescendantsIn e) =
      nsChangeHint.Empty ∧
    NS_HintsHandledForDescendantsIn (NS_HintsHandledForDescendantsIn e) =
      NS_HintsHandledForDescendantsIn e := by
  have n3 : nsChangeHint_Hints_NeverHandledForDescendants.testBit 3 = false := by decide
  have n4 : nsChangeHint_Hints_NeverHandledForDescendants.testBit 4 = false := by decide
  have h0 : NS_HintsNotHandledForDescendantsIn (NS_HintsHandledForDescendantsIn e) = 0 := by
    apply Nat.eq_of_testBit_eq
    intro i
    rw [testBit_NS_HintsNotHandledForDescendantsIn, Nat.zero_testBit]
    simp only [testBit_NS_HintsHandledForDescendantsIn_bits, n3, n4]
    cases e.testBit i <;> cases e.testBit 3 <;> cases e.testBit 4 <;>
      cases nsChangeHint_Hints_NeverHandledForDescendants.testBit i <;>
      cases decide (1 = i) <;> cases decide (23 = i) <;> cases decide (2 = i) <;>
      cases decide (i < 32) <;> simp
  refine ⟨h0, ?_⟩
  apply Nat.eq_of_testBit_eq
  intro i
  rw [testBit_NS_HintsHandledForDescendantsIn (NS_HintsHandledForDescendantsIn e) i, h0,
    Nat.zero_testBit, testBit_NS_HintsHandledForDescendantsIn]
  cases e.testBit i <;> cases decide (i < 32) <;> simp

/-- C22: with nothing handled by an ancestor, a 32-bit hint set that contains
`NeedReflow` whenever it contains one of `ClearAncestorIntrinsics`,
`ClearDescendantIntrinsics`, `NeedDirtyReflow`, `ReflowChangesSizeOrPosition`,
`UpdateComputedBSize`, and contains `NeedDirtyReflow` whenever it contains
`ClearDescendantIntrinsics`, is returned unchanged by
`NS_RemoveSubsumedHints`. -/
theorem removeSubsumed_empty_handled (aOurChange : Nat) (hlt : aOurChange < 2 ^ 32)
    (hReflow : ((aOurChange &&&
        (ClearAncestorIntrinsics ||| ClearDescendantIntrinsics ||| NeedDirtyReflow |||
          ReflowChangesSizeOrPosition ||| UpdateComputedBSize)) != 0) = true →
        NS_IsHintSubset NeedReflow aOurChange = true)
    (hDirty : NS_IsHintSubset ClearDescendantIntrinsics aOurChange = true →
        NS_IsHintSubset NeedDirtyReflow aOurChange = true) :
    NS_RemoveSubsumedHints aOurChange nsChangeHint.Empty = aOurChange := by
  rw [reflowMask_ne_zero] at hReflow
  simp only [NeedReflow, ClearDescendantIntrinsics, NeedDirtyReflow, NS_IsHintSubset_bit]
    at hReflow hDirty
  have hP : ∀ k, (aOurChange &&&
      nsChangeHint_not (NS_HintsHandledForDescendantsIn nsChangeHint.Empty)).testBit k =
      aOurChange.testBit k := by
    intro k
    rw [testBit_residual, testBit_NS_HintsHandledForDescendantsIn_bits]
    by_cases hk : k < 32
    · simp [hk, nsChangeHint.Empty]
    · simp [testBit_ge_32 hlt (Nat.le_of_not_lt hk)]
  apply Nat.eq_of_testBit_eq
  intro i
  rw [testBit_NS_RemoveSubsumedHints_residual]
  simp only [hP]
  by_cases i1 : 1 = i
  · subst i1
    cases h1 : aOurChange.testBit 1
    · rw [h1] at hReflow
      cases hm : (aOurChange.testBit 2 || aOurChange.testBit 3 || aOurChange.testBit 4 ||
          aOurChange.testBit 23 || aOurChange.testBit 24)
      · simp
      · exact absurd (hReflow hm) (by decide)
    · simp
  by_cases i4 : 4 = i
  · subst i4
    cases h4 : aOurChange.testBit 4
    · rw [h4] at hDirty
      cases h3 : aOurChange.testBit 3
      · simp
      · exact absurd (hDirty h3) (by decide)
    · simp
  simp [i1, i4]

/-- The identity of C22 at `NS_STYLE_HINT_REFLOW`. -/
theorem removeSubsumed_empty_handled_witness :
    NS_STYLE_HINT_REFLOW < 2 ^ 32 ∧
    NS_RemoveSubsumedHints NS_STYLE_HINT_REFLOW nsChangeHint.Empty = NS_STYLE_HINT_REFLOW :=
  ⟨by decide,
   removeSubsumed_empty_handled NS_STYLE_HINT_REFLOW (by decide) (by decide) (by decide)⟩

/-- C23: `NS_RemoveSubsumedHints` is idempotent in its first argument. -/
theorem removeSubsumed_idempotent (aOurChange aHintsHandled : Nat) :
    NS_RemoveSubsumedHints (NS_RemoveSubsumedHints aOurChange aHintsHandled) aHintsHandled =
      NS_RemoveSubsumedHints aOurChange aHintsHandled := by
  have key : ∀ k, ((NS_RemoveSubsumedHints aOurChange aHintsHandled) &&&
      nsChangeHint_not (NS_HintsHandledForDescendantsIn aHintsHandled)).testBit k =
      ((NS_RemoveSubsumedHints aOurChange aHintsHandled).testBit k && decide (k < 32) &&
        !(NS_HintsHandledForDescendantsIn aHintsHandled).testBit k) :=
    fun k => testBit_residual _ _ k
  have hP := testBit_residual_imp aOurChange aHintsHandled
  have e2 : ((NS_RemoveSubsumedHints aOurChange aHintsHandled) &&&
      nsChangeHint_not (NS_HintsHandledForDescendantsIn aHintsHandled)).testBit 2 =
      (aOurChange &&&
        nsChangeHint_not (NS_HintsHandledForDescendantsIn aHintsHandled)).testBit 2 := by
    have h := hP 2
    rw [key, testBit_NS_RemoveSubsumedHints_residual]
    cases hp : (aOurChange &&&
        nsChangeHint_not (NS_HintsHandledForDescendantsIn aHintsHandled)).testBit 2
    · simp
    · simp [(h hp).2]
  have e3 : ((NS_RemoveSubsumedHints aOurChange aHintsHandled) &&&
      nsChangeHint_not (NS_HintsHandledForDescendantsIn aHintsHandled)).testBit 3 =
      (aOurChange &&&
        nsChangeHint_not (NS_HintsHandledForDescendantsIn aHintsHandled)).testBit 3 := by
    have h := hP 3
    rw [key, testBit_NS_RemoveSubsumedHints_residual]
    cases hp : (aOurChange &&&
        nsChangeHint_not (NS_HintsHandledForDescendantsIn aHintsHandled)).testBit 3
    · simp
    · simp [(h hp).2]
  have e23 : ((NS_RemoveSubsumedHints aOurChange aHintsHandled) &&&
      nsChangeHint_not (NS_HintsHandledForDescendantsIn aHintsHandled)).testBit 23 =
      (aOurChange &&&
        nsChangeHint_not (NS_HintsHandledForDescendantsIn aHintsHandled)).testBit 23 := by
    have h := hP 23
    rw [key, testBit_NS_RemoveSubsumedHints_residual]
    cases hp : (aOurChange &&&
        nsChangeHint_not (NS_HintsHandledForDescendantsIn aHintsHandled)).testBit 23
    · simp
    · simp [(h hp).2]
  have e24 : ((NS_RemoveSubsumedHints aOurChange aHintsHandled) &&&
      nsChangeHint_not (NS_HintsHandledForDescendantsIn aHintsHandled)).testBit 24 =
      (aOurChange &&&
        nsChangeHint_not (NS_HintsHandledForDescendantsIn aHintsHandled)).testBit 24 := by
    have h := hP 24
    rw [key, testBit_NS_RemoveSubsumedHints_residual]
    cases hp : (aOurChange &&&
        nsChangeHint_not (NS_HintsHandledForDescendantsIn aHintsHandled)).testBit 24
    · simp
    · simp [(h hp).2]
  have e4 : ((NS_RemoveSubsumedHints aOurChange aHintsHandled) &&&
      nsChangeHint_not (NS_HintsHandledForDescendantsIn aHintsHandled)).testBit 4 =
      (((aOurChange &&&
          nsChangeHint_not (NS_HintsHandledForDescendantsIn aHintsHandled)).testBit 4 ||
        (aOurChange &&&
          nsChangeHint_not (NS_HintsHandledForDescendantsIn aHintsHandled)).testBit 3) &&
        !(NS_HintsHandledForDescendantsIn aHintsHandled).testBit 4) := by
    rw [key, testBit_NS_RemoveSubsumedHints_residual]
    simp
  apply Nat.eq_of_testBit_eq
  intro i
  rw [testBit_NS_RemoveSubsumedHints_residual
    (NS_RemoveSubsumedHints aOurChange aHintsHandled) aHintsHandled i, e2, e3, e23, e24, e4,
    key i, testBit_NS_RemoveSubsumedHints_residual aOurChange aHintsHandled i]
  have h4 := hP 4
  have hi := hP i
  clear key hP e2 e3 e23 e24 e4
  generalize (aOurChange &&&
    nsChangeHint_not (NS_HintsHandledForDescendantsIn aHintsHandled)) = P at h4 hi ⊢
  generalize (NS_HintsHandledForDescendantsIn aHintsHandled).testBit 4 = H4 at h4 ⊢
  generalize (NS_HintsHandledForDescendantsIn aHintsHandled).testBit i = Hi at hi ⊢
  cases hpi : P.testBit i <;> cases hp4 : P.testBit 4 <;> cases hp3 : P.testBit 3 <;>
    cases hp2 : P.testBit 2 <;> cases hp23 : P.testBit 23 <;> cases hp24 : P.testBit 24 <;>
    simp_all <;>
    cases decide (1 = i) <;> cases decide (4 = i) <;> cases decide (i < 32) <;>
    cases Hi <;> rfl

/-- C24: `NS_RemoveSubsumedHints` preserves well-formedness: when `aOurChange`
does not contain `ClearDescendantIntrinsics` without
`ClearAncestorIntrinsics`, the result satisfies every implication rule that
the comments of the enumerators state, whatever the ancestor handled. -/
theorem removeSubsumed_preserves_rules (aOurChange aHintsHandled : Nat)
    (hown : NS_IsHintSubset ClearDescendantIntrinsics aOurChange = true →
      NS_IsHintSubset ClearAncestorIntrinsics aOurChange = true) :
    nsChangeHint_documentedRulesHold (NS_RemoveSubsumedHints aOurChange aHintsHandled) =
      true := by
  have n2 : nsChangeHint_Hints_NeverHandledForDescendants.testBit 2 = false := by decide
  have n3 : nsChangeHint_Hints_NeverHandledForDescendants.testBit 3 = false := by decide
  have h32 : (aOurChange &&&
      nsChangeHint_not (NS_HintsHandledForDescendantsIn aHintsHandled)).testBit 3 = true →
      (aOurChange &&&
        nsChangeHint_not (NS_HintsHandledForDescendantsIn aHintsHandled)).testBit 2 = true := by
    simp only [ClearAncestorIntrinsics, ClearDescendantIntrinsics, NS_IsHintSubset_bit] at hown
    simp only [testBit_residual, testBit_NS_HintsHandledForDescendantsIn_bits, n2, n3]
    revert hown
    cases aOurChange.testBit 2 <;> cases aOurChange.testBit 3 <;>
      cases aHintsHandled.testBit 2 <;> cases aHintsHandled.testBit 3 <;> simp
  unfold nsChangeHint_documentedRulesHold
  simp only [ClearAncestorIntrinsics, ClearDescendantIntrinsics, NeedDirtyReflow, NeedReflow,
    ReflowChangesSizeOrPosition, UpdateComputedBSize, NS_IsHintSubset_bit,
    testBit_NS_RemoveSubsumedHints_residual]
  clear hown
  generalize (aOurChange &&&
    nsChangeHint_not (NS_HintsHandledForDescendantsIn aHintsHandled)) = P at h32 ⊢
  revert h32
  cases P.testBit 1 <;> cases P.testBit 2 <;> cases P.testBit 3 <;> cases P.testBit 4 <;>
    cases P.testBit 23 <;> cases P.testBit 24 <;> simp

/-- The preservation of C24 for a node with `ClearDescendantIntrinsics`,
`ClearAncestorIntrinsics` and `RepaintFrame` under an ancestor that handled
`NeedReflow` and `RepaintFrame`: the result gains `NeedReflow` and
`NeedDirtyReflow`. -/
theorem removeSubsumed_preserves_rules_witness :
    NS_IsHintSubset ClearAncestorIntrinsics
      (ClearDescendantIntrinsics ||| ClearAncestorIntrinsics ||| RepaintFrame) = true ∧
    nsChangeHint_documentedRulesHold
      (ClearDescendantIntrinsics ||| ClearAncestorIntrinsics ||| RepaintFrame) = false ∧
    nsChangeHint_documentedRulesHold
      (NS_RemoveSubsumedHints
        (ClearDescendantIntrinsics ||| ClearAncestorIntrinsics ||| RepaintFrame)
        (NeedReflow ||| RepaintFrame)) = true :=
  ⟨by decide, by decide,
   removeSubsumed_preserves_rules
     (ClearDescendantIntrinsics ||| ClearAncestorIntrinsics ||| RepaintFrame)
     (NeedReflow ||| RepaintFrame) (fun _ => by decide)⟩
